import Mathlib

/-!
Shallow embedding of dat.fire (src/index.js): the value-normalization and
controller-dispatch protocol and the prev/next cursor-cycling protocol,
together with theorems settling the specification claims about them.

Numbers are modelled by the rationals; mutation is modelled by explicit
state passing; a JavaScript property access on `undefined` (reading or
writing a property of a missing value, or calling a missing method) is
modelled as a raised `JsErr.typeError`, with the state mutations that
happened before the throw preserved in the returned state.
-/

namespace DatFire

/-- Outcome of the JavaScript `typeof controller.getValue()` test in
`getControllerType` (src/index.js lines 8-19): only `number` and `boolean`
matter, everything else falls through to the option kind. -/
inductive JsType
  | number
  | boolean
  | stringT
  | objectT
  | undefinedT
deriving DecidableEq, Repr

/-- The four widget kinds returned by `getControllerType` (the keys of
`controllerMap`, src/index.js lines 28-33). -/
inductive ControllerType
  | color
  | boolean
  | number
  | option
deriving DecidableEq, Repr

/-- Model of a dat.GUI controller carrying exactly the fields src/index.js reads:
`property` (the bound property name, used as registry key by `addControllers`),
whether `__li.classList` contains the class `color`, the `typeof` of
`getValue()`, `__min`/`__max` for number controllers, the mutable `__color`
h/s/v fields for color controllers, and `__select.childNodes.length` for
option controllers. -/
structure Controller where
  property : String
  liHasColorClass : Bool
  valueType : JsType
  min : ℚ
  max : ℚ
  colorH : ℚ
  colorS : ℚ
  colorV : ℚ
  numChildNodes : ℕ
deriving DecidableEq, Repr

/-- `getControllerType` (src/index.js lines 8-19): the `color` CSS class wins,
then `typeof getValue()` distinguishes `number` and `boolean`, and anything
else is an option controller. -/
def getControllerType (c : Controller) : ControllerType :=
  if c.liHasColorClass then .color
  else
    match c.valueType with
    | .number => .number
    | .boolean => .boolean
    | _ => .option

/-- `map` (src/index.js lines 21-23), verbatim:
`(value - inMin) * (outMax - outMin) / (inMax - inMin) + outMin`. -/
def map (value inMin inMax outMin outMax : ℚ) : ℚ :=
  (value - inMin) * (outMax - outMin) / (inMax - inMin) + outMin

/-- An HSV triple as written into `__color` by `handleColorControl`; the value
passed to `setValue` is `__color.toOriginal()`, the external dat.gui conversion
of exactly this triple to the widget's native color representation. -/
structure HSV where
  h : ℚ
  s : ℚ
  v : ℚ
deriving DecidableEq, Repr

/-- `handleNumberControl` (src/index.js lines 198-202): the argument passed to
`setValue`, namely `map(dialValue, 0, 1, __min, __max)`. -/
def handleNumberControl (c : Controller) (dialValue : ℚ) : ℚ :=
  map dialValue 0 1 c.min c.max

/-- `handleBooleanControl` (src/index.js lines 204-209): the Boolean passed to
`setValue`, `val > .5 ? true : false`. -/
def handleBooleanControl (val : ℚ) : Bool :=
  if val > 1/2 then true else false

/-- `handleColorControl` (src/index.js lines 211-223). The JavaScript guard
`if (val)` is number truthiness, i.e. `val ≠ 0` for our rational model.
Returns the updated controller (its mutated `__color` fields) together with
the list of `setValue` calls performed, each recorded as the `__color` HSV
triple that `toOriginal()` converts. -/
def handleColorControl (c : Controller) (val : ℚ) : Controller × List HSV :=
  if val ≠ 0 then
    ({ c with colorH := val * 360, colorS := 1, colorV := 1/2 },
     [{ h := val * 360, s := 1, v := 1/2 }])
  else (c, [])

/-- `handleOptionControl` (src/index.js lines 225-227): the new
`__select.selectedIndex`, `Math.floor(val * __select.childNodes.length)`. -/
def handleOptionControl (c : Controller) (val : ℚ) : ℤ :=
  Int.floor (val * (c.numChildNodes : ℚ))

/-- The widget-visible effect of one dispatch through `controllerMap`
(src/index.js line 194): which setter was invoked and with what. -/
inductive DispatchResult
  | setNumber (value : ℚ)
  | setBool (value : Bool)
  | colorCalls (calls : List HSV)
  | setOption (index : ℤ)
deriving DecidableEq, Repr

/-- `this[controllerMap[type]](val.val())` (src/index.js line 194):
`controllerMap` has an entry for all four controller types, so the handler
always exists and is always invoked. -/
def controllerDispatch (c : Controller) (v : ℚ) : DispatchResult :=
  match getControllerType c with
  | .color => .colorCalls (handleColorControl c v).2
  | .boolean => .setBool (handleBooleanControl v)
  | .number => .setNumber (handleNumberControl c v)
  | .option => .setOption (handleOptionControl c v)

/-- A registry entry as pushed by `addControllers` (src/index.js line 251):
the plain object `{'key': ctrl.property, 'controller': ctrl}`. Note this
wrapper object has exactly these two properties, so accessing `.style` or
calling `.getParent()` on it behaves as on any absent property. -/
structure WidgetEntry where
  key : String
  controller : Controller
deriving DecidableEq, Repr

/-- `addControllers` (src/index.js lines 241-255): appends one wrapper entry
per controller to the existing registry (`this.controllers.concat(...)`). -/
def addControllers (existing : List WidgetEntry) (ctrls : List Controller) : List WidgetEntry :=
  existing ++ ctrls.map (fun ctrl => { key := ctrl.property, controller := ctrl })

/-- `getControllerByKey` (src/index.js lines 280-285): linear scan from index 0
returning the first entry whose `key` matches, unwrapped to its `.controller`;
`none` (JavaScript `undefined`, the implicit return) when nothing matches. -/
def getControllerByKey (controllers : List WidgetEntry) (key : String) : Option Controller :=
  (controllers.find? (fun e => e.key == key)).map (fun e => e.controller)

/-- What `this.currentController` holds: `handleNext`/`handlePrev` assign the
registry wrapper entry (src/index.js lines 162, 180), while `handleValueChange`
assigns the unwrapped controller returned by `getControllerByKey` (line 187). -/
inductive Selected
  | entry (e : WidgetEntry)
  | ctrl (c : Controller)
deriving DecidableEq, Repr

/-- The mutable instance state touched by the cursor and value handlers:
`this.controllers`, `this.currentControllerIndex`, `this.currentController`. -/
structure DatFireState where
  controllers : List WidgetEntry
  currentControllerIndex : ℤ
  currentController : Option Selected
deriving DecidableEq, Repr

/-- The state set up by the constructor (src/index.js lines 55-62):
empty registry, index `-1`, no current controller. -/
def initialState : DatFireState :=
  { controllers := [], currentControllerIndex := -1, currentController := none }

/-- A JavaScript `TypeError` raised by dereferencing `undefined`. -/
inductive JsErr
  | typeError
deriving DecidableEq, Repr

/-- JavaScript array indexing `this.controllers[i]`: `undefined` (`none`)
outside bounds, including negative indices. -/
def jsIndex (l : List WidgetEntry) (i : ℤ) : Option WidgetEntry :=
  if 0 ≤ i then l.get? i.toNat else none

/-- `handleNext` (src/index.js lines 167-183) with the trigger already decoded
to its truthiness (`next = next.val ? next.val() : next`). On a truthy trigger
the index is incremented and wrapped to 0 at `>= length` first; then
`removeBackground(this.currentController)` writes
`currentController.style.backgroundColor`, and since `currentController` is a
two-property wrapper `{key, controller}` (or an unwrapped controller), its
`.style` is `undefined`, so the write raises a TypeError before
`currentController` is reassigned. When no controller was current, the
reassignment `this.currentController = this.controllers[i]` happens and the
subsequent `addBackground` raises the TypeError instead (on the wrapper's
missing `.style`, or on `undefined` itself when the registry is empty).
The returned state holds every mutation performed before the throw. -/
def handleNext (s : DatFireState) (next : Bool) : DatFireState × Option JsErr :=
  if next then
    let i0 := s.currentControllerIndex + 1
    let i := if (s.controllers.length : ℤ) ≤ i0 then 0 else i0
    match s.currentController with
    | some _ => ({ s with currentControllerIndex := i }, some .typeError)
    | none =>
      ({ s with currentControllerIndex := i,
                currentController := (jsIndex s.controllers i).map .entry },
       some .typeError)
  else (s, none)

/-- `handlePrev` (src/index.js lines 149-165) with the trigger already decoded
to its truthiness. On a truthy trigger the index is decremented and wrapped to
`length - 1` below 0 first; then `removeBackground(this.currentController.getParent())`
raises a TypeError when the current controller is a wrapper entry (the wrapper
has no `getParent` method); when it is an unwrapped controller the call
succeeds (controllers are given `getParent` in `addControllers`), and when
none is current the block is skipped — in both latter cases
`this.currentController` is then reassigned to `this.controllers[i]` and
`addBackground(this.currentController.getParent())` raises the TypeError
(the assigned value is again a `getParent`-less wrapper, or `undefined`). -/
def handlePrev (s : DatFireState) (prev : Bool) : DatFireState × Option JsErr :=
  if prev then
    let i0 := s.currentControllerIndex - 1
    let i := if i0 < 0 then (s.controllers.length : ℤ) - 1 else i0
    match s.currentController with
    | some (.entry _) => ({ s with currentControllerIndex := i }, some .typeError)
    | _ =>
      ({ s with currentControllerIndex := i,
                currentController := (jsIndex s.controllers i).map .entry },
       some .typeError)
  else (s, none)

/-- `advance()` of the spec: `handleNext` on a truthy trigger, state part. -/
def advance (s : DatFireState) : DatFireState := (handleNext s true).1

/-- `retreat()` of the spec: `handlePrev` on a truthy trigger, state part. -/
def retreat (s : DatFireState) : DatFireState := (handlePrev s true).1

/-- `handleValueChange` (src/index.js lines 185-196) for a notification whose
snapshot carries `key` and numeric payload `v` (the snapshot object itself is
always truthy, so `this.controllers.length && val` reduces to the registry
being non-empty). The current controller is reassigned to the key lookup
result; when the lookup misses, `getControllerType(undefined)` reads
`undefined.__li` and raises a TypeError (with `simpleGui` the earlier
`undefined.show()` call raises the same TypeError), so no dispatch happens.
Returns the post state, the dispatch performed (if any) and the error. -/
def handleValueChange (s : DatFireState) (key : String) (v : ℚ) :
    DatFireState × Option DispatchResult × Option JsErr :=
  if s.controllers.length ≠ 0 then
    match getControllerByKey s.controllers key with
    | none => ({ s with currentController := none }, none, some .typeError)
    | some c => ({ s with currentController := some (.ctrl c) }, some (controllerDispatch c v), none)
  else (s, none, none)

/-! Concrete controllers and states used by witnesses and counterexamples. -/

/-- A numeric controller like `gui.add(settings, 'speed', 0, 3)` from the README. -/
def speedController : Controller :=
  { property := "speed", liHasColorClass := false, valueType := .number,
    min := 0, max := 3, colorH := 0, colorS := 0, colorV := 0, numChildNodes := 0 }

/-- A second numeric controller, `dieSpeed` with range `[0, 1/10]`. -/
def dieSpeedController : Controller :=
  { property := "dieSpeed", liHasColorClass := false, valueType := .number,
    min := 0, max := 1/10, colorH := 0, colorS := 0, colorV := 0, numChildNodes := 0 }

/-- A color controller (its `__li` carries the `color` class). -/
def colorController : Controller :=
  { property := "color1", liHasColorClass := true, valueType := .objectT,
    min := 0, max := 0, colorH := 20, colorS := 3/10, colorV := 7/10, numChildNodes := 0 }

/-- An option controller backed by a select with 4 child nodes. -/
def choicesController : Controller :=
  { property := "choices", liHasColorClass := false, valueType := .stringT,
    min := 0, max := 0, colorH := 0, colorS := 0, colorV := 0, numChildNodes := 4 }

/-- Two same-key controllers differing only in `__max`. -/
def dupControllerA : Controller :=
  { property := "k", liHasColorClass := false, valueType := .number,
    min := 0, max := 1, colorH := 0, colorS := 0, colorV := 0, numChildNodes := 0 }

/-- Second registration under the duplicate key `k`. -/
def dupControllerB : Controller :=
  { dupControllerA with max := 2 }

/-- Cursor-mode state right after `initPrevNext`'s synthetic `handleNext(true)`
on a one-controller registry: index 0, the wrapper entry selected. -/
def cursorModeState : DatFireState :=
  { controllers := addControllers [] [speedController],
    currentControllerIndex := 0,
    currentController := some (.entry { key := "speed", controller := speedController }) }

/-- Per-widget-mode state with a two-controller registry and no selection. -/
def perWidgetState : DatFireState :=
  { controllers := addControllers [] [speedController, dieSpeedController],
    currentControllerIndex := -1,
    currentController := none }

/-- A two-controller registry with the cursor on index 0. -/
def twoState : DatFireState :=
  { controllers := addControllers [] [speedController, dieSpeedController],
    currentControllerIndex := 0,
    currentController := some (.entry { key := "speed", controller := speedController }) }

/-! Projection lemmas for the cursor handlers: the index update (src/index.js
lines 170-174 and 152-156) always completes before any highlight code runs, and
neither handler touches the registry. -/

lemma advance_controllers (s : DatFireState) : (advance s).controllers = s.controllers := by
  unfold advance handleNext
  cases s.currentController <;> simp

lemma advance_index (s : DatFireState) :
    (advance s).currentControllerIndex =
      if (s.controllers.length : ℤ) ≤ s.currentControllerIndex + 1 then 0
      else s.currentControllerIndex + 1 := by
  unfold advance handleNext
  cases s.currentController <;> simp

lemma retreat_controllers (s : DatFireState) : (retreat s).controllers = s.controllers := by
  unfold retreat handlePrev
  rcases h : s.currentController with _ | sel
  · simp
  · cases sel <;> simp

lemma retreat_index (s : DatFireState) :
    (retreat s).currentControllerIndex =
      if s.currentControllerIndex - 1 < 0 then (s.controllers.length : ℤ) - 1
      else s.currentControllerIndex - 1 := by
  unfold retreat handlePrev
  rcases h : s.currentController with _ | sel
  · simp
  · cases sel <;> simp

lemma advance_index_emod (s : DatFireState)
    (h0 : 0 ≤ s.currentControllerIndex)
    (h1 : s.currentControllerIndex < (s.controllers.length : ℤ)) :
    (advance s).currentControllerIndex =
      (s.currentControllerIndex + 1) % (s.controllers.length : ℤ) := by
  rw [advance_index]
  split_ifs with h
  · have he : s.currentControllerIndex + 1 = (s.controllers.length : ℤ) :=
      le_antisymm (by omega) h
    rw [he, Int.emod_self]
  · rw [Int.emod_eq_of_lt (by omega) (by omega)]

lemma advance_iterate_emod (k : ℕ) (s : DatFireState)
    (h0 : 0 ≤ s.currentControllerIndex)
    (h1 : s.currentControllerIndex < (s.controllers.length : ℤ)) :
    (advance^[k] s).controllers = s.controllers ∧
    (advance^[k] s).currentControllerIndex =
      (s.currentControllerIndex + (k : ℤ)) % (s.controllers.length : ℤ) := by
  have hL : 0 < (s.controllers.length : ℤ) := lt_of_le_of_lt h0 h1
  induction k with
  | zero => simpa using (Int.emod_eq_of_lt h0 h1).symm
  | succ n ih =>
    obtain ⟨hc, hi⟩ := ih
    rw [Function.iterate_succ_apply']
    have hb0 : 0 ≤ (advance^[n] s).currentControllerIndex := by
      rw [hi]
      exact Int.emod_nonneg _ (ne_of_gt hL)
    have hb1 : (advance^[n] s).currentControllerIndex <
        (((advance^[n] s).controllers.length : ℕ) : ℤ) := by
      rw [hi, hc]
      exact Int.emod_lt_of_pos _ hL
    refine ⟨by rw [advance_controllers, hc], ?_⟩
    rw [advance_index_emod _ hb0 hb1, hc, hi, Int.emod_add_emod]
    congr 1
    push_cast
    ring

/-! Claim theorems. -/

/-- Claim C3 counterexample: with the empty registry of the freshly constructed
instance, a truthy next trigger is not a no-op: the cursor index is mutated
from -1 to 0 and a TypeError is raised by `addBackground(undefined)`. -/
theorem empty_registry_navigation_not_noop :
    ¬ ((handleNext initialState true).1 = initialState ∧
       (handleNext initialState true).2 = none) := by
  decide

/-- Claim C3 (amended): when the registry is empty, every truthy navigation
trigger raises a TypeError while applying the selection highlight to the
missing widget (so it is not error-free), it leaves the missing selection
missing, and `handleNext` on the freshly constructed state additionally
mutates the cursor index from -1 to 0. -/
theorem empty_registry_navigation (s : DatFireState) (h : s.controllers = []) :
    (handleNext s true).2 = some JsErr.typeError ∧
    (handlePrev s true).2 = some JsErr.typeError ∧
    (s.currentController = none → (handleNext s true).1.currentController = none) ∧
    (handleNext initialState true).1.currentControllerIndex = 0 ∧
    initialState.currentControllerIndex = -1 := by
  refine ⟨?_, ?_, ?_, by decide, by decide⟩
  · unfold handleNext
    cases s.currentController <;> simp
  · unfold handlePrev
    rcases s.currentController with _ | sel
    · simp
    · cases sel <;> simp
  · intro hnone
    unfold handleNext
    rw [hnone]
    simp [jsIndex, h]

/-- Witness for C3 (amended): the freshly constructed, empty-registry state. -/
theorem empty_registry_navigation_witness :
    (handleNext initialState true).2 = some JsErr.typeError ∧
    (handlePrev initialState true).2 = some JsErr.typeError ∧
    (initialState.currentController = none →
      (handleNext initialState true).1.currentController = none) ∧
    (handleNext initialState true).1.currentControllerIndex = 0 ∧
    initialState.currentControllerIndex = -1 :=
  empty_registry_navigation initialState rfl

/-- Claim C5: for every non-empty registry of length N and every valid starting
cursor index, N advances return the cursor index to its starting value. -/
theorem advance_cycles (s : DatFireState)
    (h0 : 0 ≤ s.currentControllerIndex)
    (h1 : s.currentControllerIndex < (s.controllers.length : ℤ)) :
    (advance^[s.controllers.length] s).currentControllerIndex =
      s.currentControllerIndex := by
  rw [(advance_iterate_emod s.controllers.length s h0 h1).2]
  have hL : 0 < (s.controllers.length : ℤ) := lt_of_le_of_lt h0 h1
  have hself : (s.currentControllerIndex + (s.controllers.length : ℤ)) %
      (s.controllers.length : ℤ) = s.currentControllerIndex % (s.controllers.length : ℤ) := by
    simpa using Int.add_mul_emod_self_left (a := s.currentControllerIndex)
      (b := (s.controllers.length : ℤ)) (c := 1)
  rw [hself, Int.emod_eq_of_lt h0 h1]

/-- Witness for C5: a two-controller registry starting at index 0. -/
theorem advance_cycles_witness :
    (advance^[twoState.controllers.length] twoState).currentControllerIndex =
      twoState.currentControllerIndex :=
  advance_cycles twoState (by decide) (by decide)

/-- Claim C6: on a non-empty registry with a valid cursor index, retreat is the
exact inverse of advance: advance-then-retreat and retreat-then-advance both
restore the starting cursor index. -/
theorem advance_retreat_inverse (s : DatFireState)
    (h0 : 0 ≤ s.currentControllerIndex)
    (h1 : s.currentControllerIndex < (s.controllers.length : ℤ)) :
    (retreat (advance s)).currentControllerIndex = s.currentControllerIndex ∧
    (advance (retreat s)).currentControllerIndex = s.currentControllerIndex := by
  constructor
  · rw [retreat_index, advance_controllers, advance_index]
    split_ifs <;> omega
  · rw [advance_index, retreat_controllers, retreat_index]
    split_ifs <;> omega

/-- Witness for C6: the two-controller registry at index 0. -/
theorem advance_retreat_inverse_witness :
    (retreat (advance twoState)).currentControllerIndex =
      twoState.currentControllerIndex ∧
    (advance (retreat twoState)).currentControllerIndex =
      twoState.currentControllerIndex :=
  advance_retreat_inverse twoState (by decide) (by decide)

/-- Claim C2: for the numeric dispatch, for every raw in [0,1] and every
min, max with min < max, the value written to the widget equals
`min + raw*(max-min)`; in particular raw=0 yields min and raw=1 yields max. -/
theorem handleNumberControl_affine (c : Controller) (raw : ℚ)
    (_h0 : 0 ≤ raw) (_h1 : raw ≤ 1) (_hlt : c.min < c.max) :
    handleNumberControl c raw = c.min + raw * (c.max - c.min) ∧
    handleNumberControl c 0 = c.min ∧
    handleNumberControl c 1 = c.max := by
  refine ⟨?_, ?_, ?_⟩ <;>
    · unfold handleNumberControl map
      ring

/-- Witness for C2: the speed controller (range [0,3]) at raw = 1/4. -/
theorem handleNumberControl_affine_witness :
    handleNumberControl speedController (1/4) =
      speedController.min + (1/4) * (speedController.max - speedController.min) ∧
    handleNumberControl speedController 0 = speedController.min ∧
    handleNumberControl speedController 1 = speedController.max :=
  handleNumberControl_affine speedController (1/4) (by norm_num) (by norm_num) (by decide)

/-- Claim C8: the boolean dispatch sets the widget to true iff raw > 0.5
(strict threshold); raw=0.5 maps to false, raw=0.5000001 to true, raw=0 to
false, raw=1 to true. -/
theorem handleBooleanControl_threshold :
    (∀ raw : ℚ, handleBooleanControl raw = true ↔ raw > 1/2) ∧
    handleBooleanControl (1/2) = false ∧
    handleBooleanControl (5000001/10000000) = true ∧
    handleBooleanControl 0 = false ∧
    handleBooleanControl 1 = true := by
  refine ⟨fun raw => ?_, by norm_num [handleBooleanControl],
    by norm_num [handleBooleanControl], by norm_num [handleBooleanControl],
    by norm_num [handleBooleanControl]⟩
  simp [handleBooleanControl]

/-- Claim C9: the option dispatch sets the selected index to
`floor(raw * K)` for `K = childNodes.length`, with no clamping: raw=0 gives
index 0, any raw in `[1 - 1/K, 1)` gives index K-1, and raw=1 gives the
out-of-range index K. -/
theorem handleOptionControl_floor (c : Controller) (raw : ℚ)
    (hK : 0 < c.numChildNodes)
    (hlo : 1 - 1 / (c.numChildNodes : ℚ) ≤ raw) (hhi : raw < 1) :
    (∀ r : ℚ, handleOptionControl c r = Int.floor (r * (c.numChildNodes : ℚ))) ∧
    handleOptionControl c 0 = 0 ∧
    handleOptionControl c 1 = (c.numChildNodes : ℤ) ∧
    handleOptionControl c raw = (c.numChildNodes : ℤ) - 1 := by
  have hKQ : (0 : ℚ) < (c.numChildNodes : ℚ) := by exact_mod_cast hK
  refine ⟨fun r => rfl, by simp [handleOptionControl], by simp [handleOptionControl], ?_⟩
  unfold handleOptionControl
  rw [Int.floor_eq_iff]
  constructor
  · push_cast
    have hmul : (1 - 1 / (c.numChildNodes : ℚ)) * (c.numChildNodes : ℚ) ≤
        raw * (c.numChildNodes : ℚ) :=
      mul_le_mul_of_nonneg_right hlo hKQ.le
    have hexp : (1 - 1 / (c.numChildNodes : ℚ)) * (c.numChildNodes : ℚ) =
        (c.numChildNodes : ℚ) - 1 := by
      field_simp
    linarith
  · push_cast
    have := mul_lt_mul_of_pos_right hhi hKQ
    linarith

/-- Witness for C9: the 4-option controller at raw = 9/10 lands on index 3. -/
theorem handleOptionControl_floor_witness :
    handleOptionControl choicesController (9/10) =
      (choicesController.numChildNodes : ℤ) - 1 :=
  (handleOptionControl_floor choicesController (9/10) (by decide)
    (by norm_num [choicesController]) (by norm_num)).2.2.2

/-- Claim C7 counterexample: at raw = 0 (inside [0,1]) the color handler's
truthiness guard `if (val)` drops the update entirely — the `__color` fields
are untouched and the setter is invoked zero times, not exactly once. -/
theorem handleColorControl_zero_counterexample :
    (handleColorControl colorController 0).2 = [] ∧
    (handleColorControl colorController 0).1 = colorController ∧
    ¬ (handleColorControl colorController 0).2.length = 1 := by
  refine ⟨?_, ?_, ?_⟩ <;> simp [handleColorControl]

/-- Claim C7 (amended): for every nonzero raw in [0,1] the color dispatch sets
hue = raw*360, saturation = 1, value = 1/2 and invokes the setter exactly once
with that HSV triple (converted by `toOriginal`); raw = 1/2 yields hue 180.
Raw = 0 is silently dropped by the truthiness guard. -/
theorem handleColorControl_spec (c : Controller) (raw : ℚ)
    (hne : raw ≠ 0) (_h0 : 0 ≤ raw) (_h1 : raw ≤ 1) :
    (handleColorControl c raw).2 = [{ h := raw * 360, s := 1, v := 1/2 }] ∧
    (handleColorControl c raw).1.colorH = raw * 360 ∧
    (handleColorControl c raw).1.colorS = 1 ∧
    (handleColorControl c raw).1.colorV = 1/2 ∧
    (handleColorControl c (1/2)).2 = [{ h := 180, s := 1, v := 1/2 }] := by
  refine ⟨?_, ?_, ?_, ?_, ?_⟩ <;> simp [handleColorControl, hne] <;> norm_num

/-- Witness for C7 (amended): the color controller at raw = 1/2 gets hue 180,
saturation 1, value 1/2, via exactly one setter call. -/
theorem handleColorControl_spec_witness :
    (handleColorControl colorController (1/2)).2 = [{ h := 180, s := 1, v := 1/2 }] :=
  (handleColorControl_spec colorController (1/2) (by norm_num) (by norm_num)
    (by norm_num)).2.2.2.2

/-- Claim C1: in cursor mode the value-path subscription delivers snapshots
whose key is the path leaf, the configured `valueRef` (default `"value"`).
`handleValueChange` ignores the cursor selection and resolves the target by
that key: on a registry of one `speed` controller with the cursor selecting
it, the lookup misses, no dispatch reaches the selected widget, and a
TypeError is raised — contradicting the documented behavior that the value
channel updates the currently selected controller. -/
theorem cursor_mode_value_ignores_cursor :
    cursorModeState.currentController =
      some (.entry { key := "speed", controller := speedController }) ∧
    (handleValueChange cursorModeState "value" (1/2)).2.1 = none ∧
    (handleValueChange cursorModeState "value" (1/2)).2.2 = some JsErr.typeError := by
  refine ⟨rfl, ?_, ?_⟩ <;> rfl

/-- Claim C4 counterexample: per-widget state with keys `speed` and `dieSpeed`;
the notification key `dial` matches no entry, and the dispatch is not skipped
silently — a TypeError is raised. -/
theorem unresolvable_key_not_silent :
    ¬ ((handleValueChange perWidgetState "dial" (1/4)).2.2 = none) := by
  intro h
  exact Option.noConfusion h

/-- Claim C4 (amended): for every notification whose key matches no entry in a
non-empty registry, the lookup returns nothing and no widget setter is invoked,
but the skip is not silent: classifying the missing widget dereferences
`undefined` and raises a TypeError. -/
theorem unresolvable_key_behaviour (s : DatFireState) (key : String) (v : ℚ)
    (hne : s.controllers ≠ [])
    (hmiss : getControllerByKey s.controllers key = none) :
    (handleValueChange s key v).2.1 = none ∧
    (handleValueChange s key v).2.2 = some JsErr.typeError := by
  have hlen : s.controllers.length ≠ 0 := by
    simpa [List.length_eq_zero] using hne
  unfold handleValueChange
  rw [if_pos hlen, hmiss]
  exact ⟨rfl, rfl⟩

/-- Witness for C4 (amended): key `foo` against the `speed`/`dieSpeed` registry. -/
theorem unresolvable_key_behaviour_witness :
    (handleValueChange perWidgetState "foo" (1/4)).2.1 = none ∧
    (handleValueChange perWidgetState "foo" (1/4)).2.2 = some JsErr.typeError :=
  unresolvable_key_behaviour perWidgetState "foo" (1/4) (by decide) (by decide)

/-- Claim C10 counterexample: registering two controllers under the same key
`k` and looking the key up resolves to the FIRST-registered controller, not
the last-registered one. -/
theorem duplicate_key_last_wins_counterexample :
    getControllerByKey (addControllers [] [dupControllerA, dupControllerB]) "k" =
      some dupControllerA ∧
    ¬ (getControllerByKey (addControllers [] [dupControllerA, dupControllerB]) "k" =
      some dupControllerB) := by
  decide

/-- Claim C10 (amended): lookup is a linear scan returning the first match, so
on a registry with duplicate keys `getControllerByKey` resolves to the
earliest-registered matching entry: it coincides with `find?` over the
registered controllers in registration order. -/
theorem getControllerByKey_first_match (ctrls : List Controller) (key : String) :
    getControllerByKey (addControllers [] ctrls) key =
      (ctrls.find? (fun c => c.property == key)) := by
  induction ctrls with
  | nil => rfl
  | cons a l ih =>
    simp only [addControllers, List.nil_append, List.map_cons] at ih ⊢
    unfold getControllerByKey at ih ⊢
    rw [List.find?_cons, List.find?_cons]
    by_cases h : (a.property == key) = true
    · simp [h]
    · have h' : (a.property == key) = false := by simpa using h
      simpa [h'] using ih

end DatFire
